import Mathlib

/-!
Verification of the distillery financial projection engine
(`distillery_model/core/model.py`), shallowly embedded in Lean 4.

Python floats are modelled by exact rationals (ℚ); the pandas DataFrame
columns become functions `ℕ → ℚ` indexed by month (1-based, as in the
source).  Configuration dictionaries become structures whose field names
follow the YAML/dict keys read by the source.
-/

namespace Distillery

/-- `scenario['volume']` as read by `_calculate_volume_and_revenue`. -/
structure VolumeAssumptions where
  y1_bottle_target : ℚ
  y2_growth_pct : ℚ
  y3_onwards_growth_pct : ℚ
  deriving Repr, DecidableEq

/-- `const['financing']` as read by `_build_pnl_and_cash_flow` and
`_calculate_cap_table`. -/
structure FinancingConstants where
  initial_cash_position : ℚ
  safe_round_investment : ℚ
  revolver_limit : ℚ
  revolver_interest_rate : ℚ
  founder_shares : ℚ
  early_investor_shares : ℚ
  series_a_investment : ℚ
  deriving Repr, DecidableEq

/-- `scenario['financing']` as read by `_calculate_cap_table`. -/
structure FinancingScenario where
  series_a_pre_money_valuation : ℚ
  safe_valuation_cap : ℚ
  safe_discount : ℚ
  deriving Repr, DecidableEq

/-- `const['tax']` as read by `_build_pnl_and_cash_flow`. -/
structure TaxConstants where
  federal_income_tax_rate : ℚ
  oregon_state_income_tax_rate : ℚ
  deriving Repr, DecidableEq

/-- `const['capex']` as read by `_calculate_capex_and_depreciation`. -/
structure CapexConstants where
  initial_spend_month : ℕ
  initial_spend_base : ℚ
  equipment_depreciation_years : ℚ
  deriving Repr, DecidableEq

/-! ## Time schedule (`_calculate_schedule`)

`self.df['Year'] = np.ceil(self.df.index / 12).astype(int)` for the
1-based month index. -/

/-- Calendar-year index of month `m` (1-based): `ceil(m / 12)`. -/
def yearOf (m : ℕ) : ℕ := (m + 11) / 12

/-! ## Volume (`_calculate_volume_and_revenue`, volume part)

The source builds a five-element list `annual_volumes`
(`[y1, y1*(1+g2)]` then three appends for years 3, 4, 5) and maps
month `m` to `annual_volumes[Year(m) - 1] / 12`. -/

/-- The `annual_volumes` list: year 1 target, year 2 with `y2_growth_pct`,
years 3–5 each growing by `y3_onwards_growth_pct` (the `for _ in
range(3, 6)` loop unrolled). -/
def annual_volumes (v : VolumeAssumptions) : List ℚ :=
  let a1 := v.y1_bottle_target
  let a2 := a1 * (1 + v.y2_growth_pct)
  let a3 := a2 * (1 + v.y3_onwards_growth_pct)
  let a4 := a3 * (1 + v.y3_onwards_growth_pct)
  let a5 := a4 * (1 + v.y3_onwards_growth_pct)
  [a1, a2, a3, a4, a5]

/-- `self.df['Annual Volume']`: the year's entry of `annual_volumes`
(months beyond year 5 would raise an IndexError in the source; we map
them to 0, and every claim stays within range). -/
def annualVolume (v : VolumeAssumptions) (m : ℕ) : ℚ :=
  (annual_volumes v).getD (yearOf m - 1) 0

/-- `self.df['Monthly Volume'] = self.df['Annual Volume'] / 12`. -/
def monthlyVolume (v : VolumeAssumptions) (m : ℕ) : ℚ :=
  annualVolume v m / 12

/-! ## CapEx and depreciation (`_calculate_capex_and_depreciation`) -/

/-- `capex_amount = initial_spend_base * (1 + initial_spend_overrun_pct)`. -/
def capexAmount (cc : CapexConstants) (overrun_pct : ℚ) : ℚ :=
  cc.initial_spend_base * (1 + overrun_pct)

/-- `self.df['CapEx']`: `-capex_amount` at the spend month, 0 elsewhere. -/
def capexCol (cc : CapexConstants) (overrun_pct : ℚ) (m : ℕ) : ℚ :=
  if m = cc.initial_spend_month then -capexAmount cc overrun_pct else 0

/-- `self.df['Depreciation']`: 0 before the spend month, then the constant
`-capex_amount / (depr_years * 12)` from the spend month on. -/
def depreciationCol (cc : CapexConstants) (overrun_pct : ℚ) (m : ℕ) : ℚ :=
  if cc.initial_spend_month ≤ m then
    -(capexAmount cc overrun_pct / (cc.equipment_depreciation_years * 12))
  else 0

/-! ## Cash-flow and financing loop (`_build_pnl_and_cash_flow`)

The loop carries `cash[m]` and `revolver[m]`; everything else computed in
an iteration is a pure function of those and of the month's EBIT,
Depreciation and CapEx column entries.  We record one iteration's outputs
in `MonthResult` and fold `monthStep` over the months.  The EBIT,
Depreciation and CapEx columns enter as arbitrary sequences `ℕ → ℚ`, so
the theorems below cover every model run regardless of the upstream
revenue/cost stages. -/

/-- The carried state: `cash[m]` and `revolver[m]`. -/
structure CashState where
  cash : ℚ
  revolver : ℚ
  deriving Repr, DecidableEq

/-- One month's computed quantities, named after the source's variables
and DataFrame columns. -/
structure MonthResult where
  interest : ℚ
  ebt : ℚ
  taxes : ℚ
  net_income : ℚ
  cfo : ℚ
  cfi : ℚ
  cash_before_financing : ℚ
  draw_repay : ℚ
  ending_cash : ℚ
  revolver_balance : ℚ
  deriving Repr, DecidableEq

/-- One iteration of the `for m in range(1, self.months + 1)` loop:
interest on the prior revolver balance, EBT/taxes/net income, cash before
financing, and the revolver draw/repay decision. -/
def monthStep (fin : FinancingConstants) (tax : TaxConstants)
    (ebit depr capex : ℚ) (s : CashState) : MonthResult :=
  let interest := -s.revolver * fin.revolver_interest_rate / 12
  let ebt := ebit + interest
  let tax_rate := tax.federal_income_tax_rate + tax.oregon_state_income_tax_rate
  let taxes := if ebt > 0 then -ebt * tax_rate else 0
  let net_income := ebt + taxes
  let cfo := net_income - depr
  let cfi := capex
  let cash_before_financing := s.cash + cfo + cfi
  let draw_repay :=
    if cash_before_financing < 0 then
      min (-cash_before_financing) (fin.revolver_limit - s.revolver)
    else
      -(min cash_before_financing s.revolver)
  { interest := interest
    ebt := ebt
    taxes := taxes
    net_income := net_income
    cfo := cfo
    cfi := cfi
    cash_before_financing := cash_before_financing
    draw_repay := draw_repay
    ending_cash := cash_before_financing + draw_repay
    revolver_balance := s.revolver + draw_repay }

/-- The state carried into the next month. -/
def MonthResult.nextState (r : MonthResult) : CashState :=
  { cash := r.ending_cash, revolver := r.revolver_balance }

/-- `cash[m]` and `revolver[m]` after running the loop through month `m`;
`cash[0] = initial_cash_position + safe_round_investment`,
`revolver[0] = 0` (the `np.zeros` initialisation). -/
def runTo (fin : FinancingConstants) (tax : TaxConstants)
    (ebit depr capex : ℕ → ℚ) : ℕ → CashState
  | 0 => { cash := fin.initial_cash_position + fin.safe_round_investment,
           revolver := 0 }
  | m + 1 =>
      (monthStep fin tax (ebit (m + 1)) (depr (m + 1)) (capex (m + 1))
        (runTo fin tax ebit depr capex m)).nextState

/-- Month `m`'s full iteration record (for `1 ≤ m`). -/
def monthResult (fin : FinancingConstants) (tax : TaxConstants)
    (ebit depr capex : ℕ → ℚ) (m : ℕ) : MonthResult :=
  monthStep fin tax (ebit m) (depr m) (capex m)
    (runTo fin tax ebit depr capex (m - 1))

/-- `self.df['Beginning Cash']` of month `m`: `cash[m-1]`. -/
def beginningCash (fin : FinancingConstants) (tax : TaxConstants)
    (ebit depr capex : ℕ → ℚ) (m : ℕ) : ℚ :=
  (runTo fin tax ebit depr capex (m - 1)).cash

/-- `self.df['Ending Cash']` of month `m`: `cash[m]`. -/
def endingCash (fin : FinancingConstants) (tax : TaxConstants)
    (ebit depr capex : ℕ → ℚ) (m : ℕ) : ℚ :=
  (runTo fin tax ebit depr capex m).cash

/-- `self.df['Revolver Balance']` of month `m`: `revolver[m]`. -/
def revolverBalance (fin : FinancingConstants) (tax : TaxConstants)
    (ebit depr capex : ℕ → ℚ) (m : ℕ) : ℚ :=
  (runTo fin tax ebit depr capex m).revolver

/-- `self.df['Net Cash Flow'] = (CFO + CFI) + Revolver Draw/(Repay)`. -/
def netCashFlow (fin : FinancingConstants) (tax : TaxConstants)
    (ebit depr capex : ℕ → ℚ) (m : ℕ) : ℚ :=
  let r := monthResult fin tax ebit depr capex m
  (r.cfo + r.cfi) + r.draw_repay

/-- The pandas `rolling(window=6, min_periods=1).mean()` of Net Cash Flow
at month `m ≥ 1`: the mean over months `max 1 (m-5) .. m`. -/
def monthlyBurn (fin : FinancingConstants) (tax : TaxConstants)
    (ebit depr capex : ℕ → ℚ) (m : ℕ) : ℚ :=
  (∑ k in Finset.Icc (max 1 (m - 5)) m, netCashFlow fin tax ebit depr capex k)
    / (min m 6 : ℕ)

/-- `self.df['Runway (Months)'] = np.where(monthly_burn < 0,
-Ending Cash / monthly_burn, 999)`. -/
def runwayMonths (fin : FinancingConstants) (tax : TaxConstants)
    (ebit depr capex : ℕ → ℚ) (m : ℕ) : ℚ :=
  if monthlyBurn fin tax ebit depr capex m < 0 then
    -endingCash fin tax ebit depr capex m / monthlyBurn fin tax ebit depr capex m
  else 999

/-! ## Cap table (`_calculate_cap_table`) -/

/-- The record returned by `_calculate_cap_table` (the `Ownership Pct`
entries of the three investor classes, the derived prices and share
counts). -/
structure CapTableResult where
  series_a_price : ℚ
  effective_safe_price : ℚ
  founder_shares_total : ℚ
  safe_shares : ℚ
  series_a_shares : ℚ
  total_shares : ℚ
  founder_pct : ℚ
  safe_pct : ℚ
  series_a_pct : ℚ
  deriving Repr, DecidableEq

/-- `_calculate_cap_table`: SAFE conversion and dilution. -/
def calculateCapTable (fin : FinancingConstants) (sfin : FinancingScenario) :
    CapTableResult :=
  let pre_money_shares := fin.founder_shares + fin.early_investor_shares
  let series_a_price := sfin.series_a_pre_money_valuation / pre_money_shares
  let price_from_cap := sfin.safe_valuation_cap / pre_money_shares
  let price_from_discount := series_a_price * (1 - sfin.safe_discount)
  let effective_safe_price := min price_from_cap price_from_discount
  let safe_shares := fin.safe_round_investment / effective_safe_price
  let series_a_shares := fin.series_a_investment / series_a_price
  let total_shares := pre_money_shares + safe_shares + series_a_shares
  { series_a_price := series_a_price
    effective_safe_price := effective_safe_price
    founder_shares_total := pre_money_shares
    safe_shares := safe_shares
    series_a_shares := series_a_shares
    total_shares := total_shares
    founder_pct := pre_money_shares / total_shares
    safe_pct := safe_shares / total_shares
    series_a_pct := series_a_shares / total_shares }

/-! ## Model construction (`DistilleryModel.__init__`)

`__init__` stores the two configuration dictionaries, reads
`const['general']['forecast_months']` and allocates the empty ledger.  It
contains no validation and no `raise`; we embed it as an
exception-transparent constructor (`Except` is the image of a Python
`raise`) that therefore always returns `Except.ok`. -/

/-- `scenario['channel_mix']`. -/
structure ChannelMix where
  tasting_room_pct : ℚ
  club_pct : ℚ
  wholesale_pct : ℚ
  deriving Repr, DecidableEq

/-- The scenario dictionary (the groups the engine reads). -/
structure ScenarioData where
  volume : VolumeAssumptions
  channel_mix : ChannelMix
  initial_spend_overrun_pct : ℚ
  financing : FinancingScenario
  deriving Repr, DecidableEq

/-- The constants dictionary (the groups the engine reads). -/
structure Constants where
  forecast_months : ℕ
  capex : CapexConstants
  financing : FinancingConstants
  tax : TaxConstants
  deriving Repr, DecidableEq

/-- The state `__init__` leaves behind: the stored configuration and the
derived horizon (the ledger starts empty). -/
structure ModelInit where
  scenario : ScenarioData
  const : Constants
  months : ℕ
  deriving Repr, DecidableEq

/-- `DistilleryModel.__init__`: stores the inputs and sets
`self.months = const['general']['forecast_months']`.  No validation is
performed and nothing is raised. -/
def modelInit (scenario_data : ScenarioData) (constants : Constants) :
    Except String ModelInit :=
  Except.ok { scenario := scenario_data
              const := constants
              months := constants.forecast_months }

/-! ## Concrete configurations used to exercise the definitions -/

/-- The all-zero column, used where a claim is indifferent to EBIT,
Depreciation or CapEx. -/
def zeroSeq : ℕ → ℚ := fun _ => 0

/-- A small financing configuration with distinct initial cash and SAFE
proceeds. -/
def finSmall : FinancingConstants :=
  { initial_cash_position := 100
    safe_round_investment := 50
    revolver_limit := 1000
    revolver_interest_rate := 0
    founder_shares := 1
    early_investor_shares := 0
    series_a_investment := 0 }

/-- Zero tax rates. -/
def taxZero : TaxConstants :=
  { federal_income_tax_rate := 0, oregon_state_income_tax_rate := 0 }

/-! ## Lemmas about one loop iteration -/

/-- The draw/repay decision, read off one step's record. -/
theorem monthStep_draw_repay_eq (fin : FinancingConstants)
    (tax : TaxConstants) (ebit depr capex : ℚ) (s : CashState) :
    (monthStep fin tax ebit depr capex s).draw_repay =
      if (monthStep fin tax ebit depr capex s).cash_before_financing < 0 then
        min (-(monthStep fin tax ebit depr capex s).cash_before_financing)
          (fin.revolver_limit - s.revolver)
      else
        -(min (monthStep fin tax ebit depr capex s).cash_before_financing
            s.revolver) := rfl

/-- `ending_cash = cash_before_financing + draw_repay`, read off one step. -/
theorem monthStep_ending_cash_eq (fin : FinancingConstants)
    (tax : TaxConstants) (ebit depr capex : ℚ) (s : CashState) :
    (monthStep fin tax ebit depr capex s).ending_cash =
      (monthStep fin tax ebit depr capex s).cash_before_financing +
        (monthStep fin tax ebit depr capex s).draw_repay := rfl

/-- `revolver_balance = revolver + draw_repay`, read off one step. -/
theorem monthStep_revolver_balance_eq (fin : FinancingConstants)
    (tax : TaxConstants) (ebit depr capex : ℚ) (s : CashState) :
    (monthStep fin tax ebit depr capex s).revolver_balance =
      s.revolver + (monthStep fin tax ebit depr capex s).draw_repay := rfl

/-- One draw/repay step keeps the revolver within `[0, revolver_limit]`. -/
theorem monthStep_revolver_bounds (fin : FinancingConstants)
    (tax : TaxConstants) (ebit depr capex : ℚ) (s : CashState)
    (hrev0 : 0 ≤ s.revolver) (hrevL : s.revolver ≤ fin.revolver_limit) :
    0 ≤ (monthStep fin tax ebit depr capex s).revolver_balance ∧
      (monthStep fin tax ebit depr capex s).revolver_balance ≤
        fin.revolver_limit := by
  rw [monthStep_revolver_balance_eq, monthStep_draw_repay_eq]
  set cbf := (monthStep fin tax ebit depr capex s).cash_before_financing
  split_ifs with hc
  · have h1 : (0:ℚ) ≤ min (-cbf) (fin.revolver_limit - s.revolver) :=
      le_min (by linarith) (by linarith)
    have h2 := min_le_right (-cbf) (fin.revolver_limit - s.revolver)
    constructor <;> linarith
  · push_neg at hc
    have h1 : (0:ℚ) ≤ min cbf s.revolver := le_min hc hrev0
    have h2 := min_le_right cbf s.revolver
    constructor <;> linarith

/-- A step that ends with strictly negative cash has drawn the revolver
up to its limit. -/
theorem monthStep_negative_cash_exhausts_revolver (fin : FinancingConstants)
    (tax : TaxConstants) (ebit depr capex : ℚ) (s : CashState)
    (h : (monthStep fin tax ebit depr capex s).ending_cash < 0) :
    (monthStep fin tax ebit depr capex s).revolver_balance =
      fin.revolver_limit := by
  rw [monthStep_ending_cash_eq, monthStep_draw_repay_eq] at h
  rw [monthStep_revolver_balance_eq, monthStep_draw_repay_eq]
  set cbf := (monthStep fin tax ebit depr capex s).cash_before_financing
  split_ifs at h ⊢ with hc
  · rcases min_cases (-cbf) (fin.revolver_limit - s.revolver) with
      ⟨heq, _⟩ | ⟨heq, _⟩
    · rw [heq] at h; linarith
    · rw [heq]; ring
  · push_neg at hc
    have h2 := min_le_left cbf s.revolver
    linarith

/-! ## Claim theorems -/

/-- C2: for every month of every model run (the revolver starts at 0, the
configured limit is non-negative), the revolver balance after the month's
draw/repay step lies within `[0, revolver_limit]`. -/
theorem claim_revolver_within_limits (fin : FinancingConstants)
    (tax : TaxConstants) (ebit depr capex : ℕ → ℚ)
    (hL : 0 ≤ fin.revolver_limit) (m : ℕ) :
    0 ≤ revolverBalance fin tax ebit depr capex m ∧
      revolverBalance fin tax ebit depr capex m ≤ fin.revolver_limit := by
  induction m with
  | zero => exact ⟨le_refl 0, hL⟩
  | succ n ih =>
      exact monthStep_revolver_bounds fin tax (ebit (n + 1)) (depr (n + 1))
        (capex (n + 1)) (runTo fin tax ebit depr capex n) ih.1 ih.2

/-- Witness for C2: the bounds hold concretely at month 3 of a run with
zero columns. -/
theorem claim_revolver_within_limits_witness :
    0 ≤ revolverBalance finSmall taxZero zeroSeq zeroSeq zeroSeq 3 ∧
      revolverBalance finSmall taxZero zeroSeq zeroSeq zeroSeq 3 ≤
        finSmall.revolver_limit :=
  claim_revolver_within_limits finSmall taxZero zeroSeq zeroSeq zeroSeq
    (by norm_num [finSmall]) 3

/-- C10: in any month of a run (revolver starting at 0, non-negative
limit) whose ending cash is strictly negative, the revolver balance after
that month equals the configured limit. -/
theorem claim_negative_cash_exhausts_revolver (fin : FinancingConstants)
    (tax : TaxConstants) (ebit depr capex : ℕ → ℚ)
    (_hL : 0 ≤ fin.revolver_limit) (m : ℕ) (hm : 1 ≤ m)
    (hneg : endingCash fin tax ebit depr capex m < 0) :
    revolverBalance fin tax ebit depr capex m = fin.revolver_limit := by
  obtain ⟨n, rfl⟩ := Nat.exists_eq_succ_of_ne_zero (by omega : m ≠ 0)
  exact monthStep_negative_cash_exhausts_revolver fin tax (ebit (n + 1))
    (depr (n + 1)) (capex (n + 1)) (runTo fin tax ebit depr capex n) hneg

/-- A financing configuration that forces an uncovered shortfall: no
starting cash, a 40 revolver limit. -/
def finShortfall : FinancingConstants :=
  { initial_cash_position := 0
    safe_round_investment := 0
    revolver_limit := 40
    revolver_interest_rate := 0
    founder_shares := 1
    early_investor_shares := 0
    series_a_investment := 0 }

/-- Witness for C10: with EBIT -100 in month 1 against a limit of 40, the
month ends at cash -60 and the revolver sits at the limit. -/
theorem claim_negative_cash_exhausts_revolver_witness :
    revolverBalance finShortfall taxZero (fun _ => -100) zeroSeq zeroSeq 1 =
      finShortfall.revolver_limit :=
  claim_negative_cash_exhausts_revolver finShortfall taxZero
    (fun _ => -100) zeroSeq zeroSeq (by norm_num [finShortfall]) 1
    (le_refl 1) (by norm_num [endingCash, runTo, monthStep,
      MonthResult.nextState, finShortfall, taxZero, zeroSeq])

/-- Counterexample to C1 as stated: with configured initial cash 100 and
SAFE proceeds 50, the ledger's beginning cash of month 1 is 150, not the
configured initial cash. -/
theorem claim_beginning_cash_month_one_cex :
    beginningCash finSmall taxZero zeroSeq zeroSeq zeroSeq 1 = 150 ∧
      (150 : ℚ) ≠ finSmall.initial_cash_position := by
  constructor
  · norm_num [beginningCash, runTo, finSmall]
  · norm_num [finSmall]

/-- C1 (amended): for every month `m ≥ 2` the beginning cash of month `m`
equals the ending cash of month `m - 1`, and the beginning cash of month
1 equals the configured initial cash PLUS the SAFE round proceeds. -/
theorem claim_ledger_cash_continuity (fin : FinancingConstants)
    (tax : TaxConstants) (ebit depr capex : ℕ → ℚ) :
    (∀ m : ℕ, 2 ≤ m →
      beginningCash fin tax ebit depr capex m =
        endingCash fin tax ebit depr capex (m - 1)) ∧
    beginningCash fin tax ebit depr capex 1 =
      fin.initial_cash_position + fin.safe_round_investment :=
  ⟨fun _ _ => rfl, rfl⟩

/-- Witness for C1 (amended): continuity at month 2 of a concrete run. -/
theorem claim_ledger_cash_continuity_witness :
    beginningCash finSmall taxZero zeroSeq zeroSeq zeroSeq 2 =
      endingCash finSmall taxZero zeroSeq zeroSeq zeroSeq 1 :=
  (claim_ledger_cash_continuity finSmall taxZero zeroSeq zeroSeq
    zeroSeq).1 2 (by norm_num)

/-- The concrete C3 configuration: revolver limit 100,000 with 70,000
already drawn leaves headroom 30,000; cash carried in is -50,000, so cash
before financing is -50,000. -/
def finHeadroom : FinancingConstants :=
  { initial_cash_position := 0
    safe_round_investment := 0
    revolver_limit := 100000
    revolver_interest_rate := 0
    founder_shares := 1
    early_investor_shares := 0
    series_a_investment := 0 }

/-- C3: whenever cash before financing is negative, the draw equals
`min(shortfall, revolver_limit - current balance)` and ending cash equals
cash before financing plus the draw (not clamped to zero); concretely,
with cash before financing -50,000 and headroom 30,000, the draw is
30,000 and ending cash is -20,000. -/
theorem claim_revolver_draw_rule :
    (∀ (fin : FinancingConstants) (tax : TaxConstants)
        (ebit depr capex : ℚ) (s : CashState),
      (monthStep fin tax ebit depr capex s).cash_before_financing < 0 →
        (monthStep fin tax ebit depr capex s).draw_repay =
            min (-(monthStep fin tax ebit depr capex s).cash_before_financing)
              (fin.revolver_limit - s.revolver) ∧
          (monthStep fin tax ebit depr capex s).ending_cash =
            (monthStep fin tax ebit depr capex s).cash_before_financing +
              (monthStep fin tax ebit depr capex s).draw_repay) ∧
    (monthStep finHeadroom taxZero 0 0 0
        { cash := -50000, revolver := 70000 }).cash_before_financing =
      -50000 ∧
    (monthStep finHeadroom taxZero 0 0 0
        { cash := -50000, revolver := 70000 }).draw_repay = 30000 ∧
    (monthStep finHeadroom taxZero 0 0 0
        { cash := -50000, revolver := 70000 }).ending_cash = -20000 := by
  refine ⟨fun fin tax ebit depr capex s hc =>
      ⟨?_, monthStep_ending_cash_eq fin tax ebit depr capex s⟩,
    by norm_num [monthStep, finHeadroom, taxZero],
    by norm_num [monthStep, finHeadroom, taxZero],
    by norm_num [monthStep, finHeadroom, taxZero]⟩
  rw [monthStep_draw_repay_eq, if_pos hc]

/-- Witness for C3: the draw rule instantiated at the concrete shortfall
step. -/
theorem claim_revolver_draw_rule_witness :
    (monthStep finHeadroom taxZero 0 0 0
        { cash := -50000, revolver := 70000 }).draw_repay =
        min (-(monthStep finHeadroom taxZero 0 0 0
            { cash := -50000, revolver := 70000 }).cash_before_financing)
          (finHeadroom.revolver_limit - 70000) ∧
      (monthStep finHeadroom taxZero 0 0 0
          { cash := -50000, revolver := 70000 }).ending_cash =
        (monthStep finHeadroom taxZero 0 0 0
            { cash := -50000, revolver := 70000 }).cash_before_financing +
          (monthStep finHeadroom taxZero 0 0 0
              { cash := -50000, revolver := 70000 }).draw_repay :=
  claim_revolver_draw_rule.1 finHeadroom taxZero 0 0 0
    { cash := -50000, revolver := 70000 }
    (by norm_num [monthStep, finHeadroom, taxZero])

/-! ## Cap-table lemmas and claims -/

/-- `safe_shares = safe_round_investment / effective_safe_price`. -/
theorem capTable_safe_shares_eq (fin : FinancingConstants)
    (sfin : FinancingScenario) :
    (calculateCapTable fin sfin).safe_shares =
      fin.safe_round_investment /
        (calculateCapTable fin sfin).effective_safe_price := rfl

/-- `series_a_shares = series_a_investment / series_a_price`. -/
theorem capTable_series_a_shares_eq (fin : FinancingConstants)
    (sfin : FinancingScenario) :
    (calculateCapTable fin sfin).series_a_shares =
      fin.series_a_investment /
        (calculateCapTable fin sfin).series_a_price := rfl

/-- `total_shares = pre-money + SAFE + Series A shares`. -/
theorem capTable_total_shares_eq (fin : FinancingConstants)
    (sfin : FinancingScenario) :
    (calculateCapTable fin sfin).total_shares =
      (fin.founder_shares + fin.early_investor_shares) +
        (calculateCapTable fin sfin).safe_shares +
        (calculateCapTable fin sfin).series_a_shares := rfl

/-- Each ownership percentage is its class's shares over total shares. -/
theorem capTable_pcts_eq (fin : FinancingConstants)
    (sfin : FinancingScenario) :
    (calculateCapTable fin sfin).founder_pct =
        (fin.founder_shares + fin.early_investor_shares) /
          (calculateCapTable fin sfin).total_shares ∧
      (calculateCapTable fin sfin).safe_pct =
        (calculateCapTable fin sfin).safe_shares /
          (calculateCapTable fin sfin).total_shares ∧
      (calculateCapTable fin sfin).series_a_pct =
        (calculateCapTable fin sfin).series_a_shares /
          (calculateCapTable fin sfin).total_shares := ⟨rfl, rfl, rfl⟩

/-- C4: with a positive pre-money share count, positive Series A price,
positive effective SAFE price and non-negative investment amounts, the
three ownership percentages sum to 1. -/
theorem claim_cap_table_pcts_sum_to_one (fin : FinancingConstants)
    (sfin : FinancingScenario)
    (hpre : 0 < fin.founder_shares + fin.early_investor_shares)
    (hsa : 0 < (calculateCapTable fin sfin).series_a_price)
    (hsafe : 0 < (calculateCapTable fin sfin).effective_safe_price)
    (hinv1 : 0 ≤ fin.safe_round_investment)
    (hinv2 : 0 ≤ fin.series_a_investment) :
    (calculateCapTable fin sfin).founder_pct +
      (calculateCapTable fin sfin).safe_pct +
      (calculateCapTable fin sfin).series_a_pct = 1 := by
  have hss : 0 ≤ (calculateCapTable fin sfin).safe_shares := by
    rw [capTable_safe_shares_eq]
    exact div_nonneg hinv1 hsafe.le
  have hsas : 0 ≤ (calculateCapTable fin sfin).series_a_shares := by
    rw [capTable_series_a_shares_eq]
    exact div_nonneg hinv2 hsa.le
  have htot : 0 < (calculateCapTable fin sfin).total_shares := by
    rw [capTable_total_shares_eq]
    linarith
  obtain ⟨h1, h2, h3⟩ := capTable_pcts_eq fin sfin
  rw [h1, h2, h3, div_add_div_same, div_add_div_same,
    ← capTable_total_shares_eq]
  exact div_self htot.ne'

/-- The concrete §8 SAFE-conversion configuration: 10,000,000 pre-money
shares, $3M SAFE at a $15M cap and 20% discount, $30M Series A pre-money
valuation, $6M Series A round. -/
def finSafeEx : FinancingConstants :=
  { initial_cash_position := 0
    safe_round_investment := 3000000
    revolver_limit := 0
    revolver_interest_rate := 0
    founder_shares := 9000000
    early_investor_shares := 1000000
    series_a_investment := 6000000 }

/-- The scenario side of the §8 SAFE-conversion example. -/
def sfinSafeEx : FinancingScenario :=
  { series_a_pre_money_valuation := 30000000
    safe_valuation_cap := 15000000
    safe_discount := 1/5 }

/-- Witness for C4: the percentages sum to 1 at the concrete example. -/
theorem claim_cap_table_pcts_sum_to_one_witness :
    (calculateCapTable finSafeEx sfinSafeEx).founder_pct +
      (calculateCapTable finSafeEx sfinSafeEx).safe_pct +
      (calculateCapTable finSafeEx sfinSafeEx).series_a_pct = 1 :=
  claim_cap_table_pcts_sum_to_one finSafeEx sfinSafeEx
    (by norm_num [finSafeEx])
    (by norm_num [calculateCapTable, finSafeEx, sfinSafeEx])
    (by norm_num [calculateCapTable, finSafeEx, sfinSafeEx, min_def])
    (by norm_num [finSafeEx]) (by norm_num [finSafeEx])

/-- C5: the Series A price is the pre-money valuation over the pre-money
share count, the effective SAFE price is the minimum of the cap-implied
and discount-implied prices, and SAFE shares are the SAFE investment over
the effective price; at the §8 example the three values are $3, $1.50 and
2,000,000 shares. -/
theorem claim_safe_conversion :
    (∀ (fin : FinancingConstants) (sfin : FinancingScenario),
      (calculateCapTable fin sfin).series_a_price =
          sfin.series_a_pre_money_valuation /
            (fin.founder_shares + fin.early_investor_shares) ∧
        (calculateCapTable fin sfin).effective_safe_price =
          min (sfin.safe_valuation_cap /
              (fin.founder_shares + fin.early_investor_shares))
            ((calculateCapTable fin sfin).series_a_price *
              (1 - sfin.safe_discount)) ∧
        (calculateCapTable fin sfin).safe_shares =
          fin.safe_round_investment /
            (calculateCapTable fin sfin).effective_safe_price) ∧
    (calculateCapTable finSafeEx sfinSafeEx).series_a_price = 3 ∧
    (calculateCapTable finSafeEx sfinSafeEx).effective_safe_price = 3/2 ∧
    (calculateCapTable finSafeEx sfinSafeEx).safe_shares = 2000000 := by
  refine ⟨fun fin sfin => ⟨rfl, rfl, rfl⟩, ?_, ?_, ?_⟩ <;>
    norm_num [calculateCapTable, finSafeEx, sfinSafeEx, min_def]

/-! ## Model-construction claims -/

/-- An invalid channel mix: a percentage above 1 and a negative one. -/
def invalidChannelMix : ChannelMix :=
  { tasting_room_pct := 2, club_pct := -1/2, wholesale_pct := 0 }

/-- An invalid scenario: channel-mix percentages outside `[0, 1]`. -/
def invalidScenario : ScenarioData :=
  { volume := { y1_bottle_target := 50000, y2_growth_pct := 1/4,
                y3_onwards_growth_pct := 1/10 }
    channel_mix := invalidChannelMix
    initial_spend_overrun_pct := 0
    financing := { series_a_pre_money_valuation := 30000000,
                   safe_valuation_cap := 15000000, safe_discount := 1/5 } }

/-- Invalid constants: zero share counts and a zero depreciation life. -/
def invalidConstants : Constants :=
  { forecast_months := 36
    capex := { initial_spend_month := 1, initial_spend_base := 100000,
               equipment_depreciation_years := 0 }
    financing := { initial_cash_position := 0, safe_round_investment := 0,
                   revolver_limit := 0, revolver_interest_rate := 0,
                   founder_shares := 0, early_investor_shares := 0,
                   series_a_investment := 0 }
    tax := { federal_income_tax_rate := 0,
             oregon_state_income_tax_rate := 0 } }

/-- Counterexample to C6 as stated: a configuration with zero share
counts, a channel-mix percentage above 1 and a zero depreciation life is
accepted by `__init__` without any error. -/
theorem claim_init_validation_cex :
    (invalidConstants.capex.equipment_depreciation_years ≤ 0 ∧
      invalidScenario.channel_mix.tasting_room_pct > 1 ∧
      invalidConstants.financing.founder_shares +
        invalidConstants.financing.early_investor_shares ≤ 0) ∧
    modelInit invalidScenario invalidConstants =
      Except.ok { scenario := invalidScenario, const := invalidConstants,
                  months := 36 } :=
  ⟨⟨by norm_num [invalidConstants],
    by norm_num [invalidScenario, invalidChannelMix],
    by norm_num [invalidConstants]⟩, rfl⟩

/-- C6 (amended): model construction performs no validation at all —
every configuration, valid or not, is accepted, and errors can only
surface later during the run. -/
theorem claim_init_accepts_every_configuration (s : ScenarioData)
    (c : Constants) :
    modelInit s c =
      Except.ok { scenario := s, const := c,
                  months := c.forecast_months } := rfl

/-! ## Volume claims -/

/-- The §8 volume example: 50,000 year-1 bottles, 25% growth. -/
def volEx : VolumeAssumptions :=
  { y1_bottle_target := 50000, y2_growth_pct := 1/4,
    y3_onwards_growth_pct := 1/4 }

/-- C7: the annual-volume sequence starts at the year-1 target, year 2
grows by `y2_growth_pct`, years 3–5 each grow by
`y3_onwards_growth_pct`; each month's volume is its year's annual volume
over 12; at the §8 example year 2 is 62,500 and month 13 is 62,500/12. -/
theorem claim_annual_volume_recurrence :
    (∀ v : VolumeAssumptions,
      (annual_volumes v).getD 0 0 = v.y1_bottle_target ∧
        (annual_volumes v).getD 1 0 =
          (annual_volumes v).getD 0 0 * (1 + v.y2_growth_pct) ∧
        ∀ i : ℕ, 2 ≤ i → i ≤ 4 →
          (annual_volumes v).getD i 0 =
            (annual_volumes v).getD (i - 1) 0 *
              (1 + v.y3_onwards_growth_pct)) ∧
    (∀ (v : VolumeAssumptions) (m : ℕ), 1 ≤ m → m ≤ 60 →
      monthlyVolume v m = (annual_volumes v).getD (yearOf m - 1) 0 / 12) ∧
    (annual_volumes volEx).getD 1 0 = 62500 ∧
    monthlyVolume volEx 13 = 62500 / 12 := by
  refine ⟨fun v => ⟨rfl, rfl, fun i h2 h4 => ?_⟩, fun v m _ _ => rfl,
    by norm_num [annual_volumes, volEx],
    by norm_num [monthlyVolume, annualVolume, annual_volumes, yearOf, volEx]⟩
  interval_cases i <;> rfl

/-- Witness for C7: the year-3 recurrence and the month-13 mapping at the
concrete example. -/
theorem claim_annual_volume_recurrence_witness :
    (annual_volumes volEx).getD 2 0 =
        (annual_volumes volEx).getD 1 0 *
          (1 + volEx.y3_onwards_growth_pct) ∧
      monthlyVolume volEx 13 =
        (annual_volumes volEx).getD (yearOf 13 - 1) 0 / 12 :=
  ⟨(claim_annual_volume_recurrence.1 volEx).2.2 2 (by norm_num)
      (by norm_num),
    claim_annual_volume_recurrence.2.1 volEx 13 (by norm_num)
      (by norm_num)⟩

/-! ## CapEx / depreciation claims -/

/-- A concrete CapEx schedule: spend in month 7, $120,000 base, 5-year
straight-line life. -/
def capexEx : CapexConstants :=
  { initial_spend_month := 7, initial_spend_base := 120000,
    equipment_depreciation_years := 5 }

/-- C8: depreciation is 0 before the CapEx spend month and the constant
`-capex_amount/(years*12)` from the spend month on (never truncated),
while CapEx is a single negative entry at the spend month and 0
elsewhere. -/
theorem claim_straight_line_depreciation (cc : CapexConstants) (ov : ℚ)
    (m : ℕ) :
    (m < cc.initial_spend_month → depreciationCol cc ov m = 0) ∧
    (cc.initial_spend_month ≤ m →
      depreciationCol cc ov m =
        -(capexAmount cc ov / (cc.equipment_depreciation_years * 12))) ∧
    capexCol cc ov cc.initial_spend_month = -capexAmount cc ov ∧
    (m ≠ cc.initial_spend_month → capexCol cc ov m = 0) := by
  refine ⟨fun h => ?_, fun h => ?_, ?_, fun h => ?_⟩
  · simp only [depreciationCol]
    rw [if_neg (by omega)]
  · simp only [depreciationCol]
    rw [if_pos h]
  · simp only [capexCol]
    rw [if_true]
  · simp only [capexCol]
    rw [if_neg h]

/-- Witness for C8: before/at/after the month-7 spend with a 10% overrun,
months 3 and 40 behave as claimed. -/
theorem claim_straight_line_depreciation_witness :
    depreciationCol capexEx (1/10) 3 = 0 ∧
      depreciationCol capexEx (1/10) 40 =
        -(capexAmount capexEx (1/10) /
          (capexEx.equipment_depreciation_years * 12)) ∧
      capexCol capexEx (1/10) 40 = 0 :=
  ⟨(claim_straight_line_depreciation capexEx (1/10) 3).1
      (by norm_num [capexEx]),
    (claim_straight_line_depreciation capexEx (1/10) 40).2.1
      (by norm_num [capexEx]),
    (claim_straight_line_depreciation capexEx (1/10) 40).2.2.2
      (by norm_num [capexEx])⟩

/-! ## Runway claim -/

/-- C9: for every month `m ≥ 1`, the runway is `-ending_cash / burn` when
the rolling 6-month average `burn` of net cash flow over the months
available so far is negative, and the sentinel 999 otherwise; the average
runs over months `1..m` (divided by `m`) while fewer than 6 months exist,
and over `m-5..m` (divided by 6) afterwards. -/
theorem claim_runway_metric (fin : FinancingConstants) (tax : TaxConstants)
    (ebit depr capex : ℕ → ℚ) (m : ℕ) (hm : 1 ≤ m) :
    (m ≤ 6 →
      runwayMonths fin tax ebit depr capex m =
        if (∑ k in Finset.Icc 1 m,
              netCashFlow fin tax ebit depr capex k) / (m : ℚ) < 0 then
          -endingCash fin tax ebit depr capex m /
            ((∑ k in Finset.Icc 1 m,
                netCashFlow fin tax ebit depr capex k) / (m : ℚ))
        else 999) ∧
    (6 < m →
      runwayMonths fin tax ebit depr capex m =
        if (∑ k in Finset.Icc (m - 5) m,
              netCashFlow fin tax ebit depr capex k) / (6 : ℚ) < 0 then
          -endingCash fin tax ebit depr capex m /
            ((∑ k in Finset.Icc (m - 5) m,
                netCashFlow fin tax ebit depr capex k) / (6 : ℚ))
        else 999) := by
  constructor
  · intro h6
    have h1 : max 1 (m - 5) = 1 := by omega
    have h2 : min m 6 = m := by omega
    simp only [runwayMonths, monthlyBurn, h1, h2]
  · intro h6
    have h1 : max 1 (m - 5) = m - 5 := by omega
    have h2 : min m 6 = 6 := by omega
    simp only [runwayMonths, monthlyBurn, h1, h2]
    norm_num

/-- Witness for C9: the short-window case at month 2 of a concrete run. -/
theorem claim_runway_metric_witness :
    runwayMonths finSmall taxZero zeroSeq zeroSeq zeroSeq 2 =
      if (∑ k in Finset.Icc 1 2,
            netCashFlow finSmall taxZero zeroSeq zeroSeq zeroSeq k) /
          ((2 : ℕ) : ℚ) < 0 then
        -endingCash finSmall taxZero zeroSeq zeroSeq zeroSeq 2 /
          ((∑ k in Finset.Icc 1 2,
              netCashFlow finSmall taxZero zeroSeq zeroSeq zeroSeq k) /
            ((2 : ℕ) : ℚ))
      else 999 :=
  (claim_runway_metric finSmall taxZero zeroSeq zeroSeq zeroSeq 2
    (by norm_num)).1 (by norm_num)

end Distillery
